import Mathlib

/-!
Verification of the fraud-rule DSL engine (`app/dsl/` : `token.py`, `parser.py`,
`ast.py`, `__init__.py`) of the `prod-2026-otbor-stage-2` service.

The Python source is shallowly embedded: every class method becomes a pure Lean
function in explicit state-passing style, and Python exceptions become an
explicit `Except PyError` result.  Loops (`while next := self.advance(): ...`)
are embedded as structurally recursive functions over a fuel parameter; every
call site passes fuel strictly larger than the number of loop iterations that
the Python loop can perform (each iteration consumes at least one character of
the source, respectively one token of the stream), so the fuel-exhaustion
branches are unreachable and exist only to make the recursion structural.

Python-level behaviors that matter here and are embedded faithfully:
* reading a missing attribute raises `AttributeError`
  (`TokenRepr.NUMBER` in `Parser.take_value`, `parser.stream_error` in
  `parse_rule`);
* out-of-range indexing raises `IndexError` (`self.source[self.position]` in
  `TokenStream._fallback` for a trailing `!`);
* a `match` statement with no matching case falls through and the function
  returns `None` (`Field.get_propery_on_request` has no case for
  `Field.IP_ADDRESS`);
* `try/except ParserError` catches only `ParserError`; other exceptions
  propagate.
-/

set_option maxRecDepth 8192

namespace FraudDsl

/-- Python exceptions that can escape the DSL code paths modelled here.
`parserError` carries `detail` and `position` of `types.ParserError` (its
`exceptions` list is never populated on these paths and is omitted).
`outOfFuel` is an artifact of the fuel embedding of loops; it is unreachable
at the fuel values used by the top-level entry points. -/
inductive PyError where
  | parserError (detail : Option String) (position : Option Nat)
  | attributeError (name : String)
  | indexError
  | typeError
  | outOfFuel
deriving DecidableEq, Repr

/-- `types.Span`: position of a token in the source text. -/
structure Span where
  symbol : Nat
deriving DecidableEq, Repr

/-- `token.TokenRepr`: the closed token-kind enumeration.  Note that it has
members `FLOAT` and `INT` but *no* member `NUMBER`. -/
inductive TokenRepr where
  | LPAREN | RPAREN | AND | OR | NOT | STRING | FLOAT | INT | IDENTIFIER
  | GT | LT | LE | GE | EQ | NE
deriving DecidableEq, Repr

/-- `token.Token`: kind, raw text and source position. -/
structure Token where
  repr : TokenRepr
  data : String
  span : Span
deriving DecidableEq, Repr

/-- ASCII fragment of Python `str.lower`, over the character list. -/
def pyLower (s : String) : String :=
  String.mk (s.data.map Char.toLower)

/-- `Token._make_keyword`: reclassify an `IDENTIFIER` whose lowercased text is
`not` / `and` / `or`. -/
def Token.make_keyword (tok : Token) : Token :=
  if tok.repr = .IDENTIFIER then
    match pyLower tok.data with
    | "not" => ⟨.NOT, tok.data, tok.span⟩
    | "and" => ⟨.AND, tok.data, tok.span⟩
    | "or" => ⟨.OR, tok.data, tok.span⟩
    | _ => tok
  else tok

/-- ASCII fragment of Python `str.isspace` (the claims' inputs are ASCII). -/
def pyIsSpace (c : Char) : Bool :=
  c == ' ' || c == '\t' || c == '\n' || c == '\r' || c == '\x0b' || c == '\x0c'

/-- ASCII fragment of Python `str.isalpha`. -/
def pyIsAlpha (c : Char) : Bool := c.isAlpha

/-- ASCII fragment of Python `str.isnumeric`. -/
def pyIsNumeric (c : Char) : Bool := c.isDigit

/-- Python slice `source[a:b]` on the character list of the source. -/
def slice (source : List Char) (a b : Nat) : String :=
  String.mk ((source.take b).drop a)

/-- `token.TokenStream`: the lexer state, a source string with a cursor. -/
structure TokenStream where
  source : List Char
  position : Nat
deriving DecidableEq, Repr

/-- `TokenStream.advance`: get the next character, or `None` past the end. -/
def TokenStream.advance (st : TokenStream) : Option Char × TokenStream :=
  match st.source[st.position]? with
  | some ch => (some ch, ⟨st.source, st.position + 1⟩)
  | none => (none, st)

/-- `TokenStream.rewind`. -/
def TokenStream.rewind (st : TokenStream) : TokenStream :=
  if st.position > 0 then ⟨st.source, st.position - 1⟩ else st

/-- `TokenStream.skip_whitespace`: the `while next := self.advance()` loop,
fuel-embedded.  Returns the first non-space character (consumed) or `none` at
end of input. -/
def TokenStream.skip_whitespace : Nat → TokenStream → Option Char × TokenStream
  | 0, st => (none, st)
  | fuel + 1, st =>
    match st.advance with
    | (none, st') => (none, st')
    | (some next, st') =>
      if pyIsSpace next then TokenStream.skip_whitespace fuel st'
      else (some next, st')

/-- The `while` loop of `TokenStream._identifier`: consume alphabetic
characters and dots, rewinding past the first character that is neither. -/
def TokenStream.identifier_loop : Nat → TokenStream → TokenStream
  | 0, st => st
  | fuel + 1, st =>
    match st.advance with
    | (none, st') => st'
    | (some next, st') =>
      if pyIsAlpha next || next == '.' then TokenStream.identifier_loop fuel st'
      else st'.rewind

/-- `TokenStream._identifier`: called with the first character already
consumed; `str_start = self.position - 1`. -/
def TokenStream.identifier (st : TokenStream) : Token × TokenStream :=
  let str_start := st.position - 1
  let st' := TokenStream.identifier_loop (st.source.length + 1) st
  (⟨.IDENTIFIER, slice st'.source str_start st'.position, ⟨str_start⟩⟩, st')

/-- The `while` loop of `TokenStream._number`, threading `caught_dot`.
A second dot raises `ParserError("double dot found while parsing a number")`
with the position just past the offending dot. -/
def TokenStream.number_loop :
    Nat → TokenStream → Bool → Except PyError (TokenStream × Bool)
  | 0, st, caught_dot => .ok (st, caught_dot)
  | fuel + 1, st, caught_dot =>
    match st.advance with
    | (none, st') => .ok (st', caught_dot)
    | (some next, st') =>
      if pyIsNumeric next then TokenStream.number_loop fuel st' caught_dot
      else if next == '.' then
        if caught_dot then
          .error (.parserError (some "double dot found while parsing a number")
            (some st'.position))
        else TokenStream.number_loop fuel st' true
      else .ok (st'.rewind, caught_dot)

/-- `TokenStream._number`: emits `FLOAT` if a dot was seen, else `INT`. -/
def TokenStream.number (st : TokenStream) : Except PyError (Token × TokenStream) :=
  let str_start := st.position - 1
  match TokenStream.number_loop (st.source.length + 1) st false with
  | .error e => .error e
  | .ok (st', caught_dot) =>
    let r := if caught_dot then TokenRepr.FLOAT else TokenRepr.INT
    .ok (⟨r, slice st'.source str_start st'.position, ⟨str_start⟩⟩, st')

/-- The `while` loop of `TokenStream._string`: consume up to and including the
closing quote; an unterminated string consumes to end of input. -/
def TokenStream.string_loop : Nat → TokenStream → TokenStream
  | 0, st => st
  | fuel + 1, st =>
    match st.advance with
    | (none, st') => st'
    | (some next, st') =>
      if next != '\'' then TokenStream.string_loop fuel st' else st'

/-- `TokenStream._string`: called with the opening quote consumed;
`data = self.source[start : self.position - 1]`, span at `start - 1`. -/
def TokenStream.string (st : TokenStream) : Token × TokenStream :=
  let start := st.position
  let st' := TokenStream.string_loop (st.source.length + 1) st
  (⟨.STRING, slice st'.source start (st'.position - 1), ⟨start - 1⟩⟩, st')

/-- `TokenStream.peek`: reads `self.source[self.position + 1]`, with
`IndexError` mapped to `False`.  Note that because the character at
`self.position` is the one `advance` would return next, this looks one
character *past* the immediately following character. -/
def TokenStream.peek (st : TokenStream) (s : Char) : Bool :=
  match st.source[st.position + 1]? with
  | some c => c == s
  | none => false

/-- `TokenStream._fallback`: single- and double-character operator tokens.
The `"!"` branch indexes `self.source[self.position]` without a guard, so a
trailing `!` raises `IndexError`. -/
def TokenStream.fallback (st : TokenStream) (start : Char) :
    Except PyError (Token × TokenStream) :=
  let span : Span := ⟨st.position - 1⟩
  match start with
  | '=' => .ok (⟨.EQ, "=", span⟩, st)
  | '!' =>
    match st.source[st.position]? with
    | some c =>
      if c == '=' then
        let (_, st') := st.advance
        .ok (⟨.NE, "!=", span⟩, st')
      else
        .error (.parserError
          (some "no such token that starts with `!` and doesn't end with `=`")
          (some span.symbol))
    | none => .error .indexError
  | '>' =>
    if st.peek '=' then
      let (_, st') := st.advance
      .ok (⟨.GE, ">=", span⟩, st')
    else .ok (⟨.GT, ">", span⟩, st)
  | '<' =>
    if st.peek '=' then
      let (_, st') := st.advance
      .ok (⟨.LE, "<=", span⟩, st')
    else .ok (⟨.LT, "<", span⟩, st)
  | '(' => .ok (⟨.LPAREN, "(", span⟩, st)
  | ')' => .ok (⟨.RPAREN, ")", span⟩, st)
  | _ => .error (.parserError (some "unknown token start") none)

/-- `TokenStream._next_token`: dispatch on the first character of a token
(already consumed by `skip_whitespace`). -/
def TokenStream.next_token (st : TokenStream) (start : Char) :
    Except PyError (Token × TokenStream) :=
  if pyIsAlpha start then .ok st.identifier
  else if pyIsNumeric start then st.number
  else if start == '\'' then .ok st.string
  else st.fallback start

/-- `TokenStream.__iter__`: the token-producing loop, fuel-embedded (each
iteration consumes at least one source character). -/
def TokenStream.tokenize_loop : Nat → TokenStream → Except PyError (List Token)
  | 0, _ => .error .outOfFuel
  | fuel + 1, st =>
    match TokenStream.skip_whitespace (st.source.length + 1) st with
    | (none, _) => .ok []
    | (some c, st') =>
      match st'.next_token c with
      | .error e => .error e
      | .ok (tok, st'') =>
        match TokenStream.tokenize_loop fuel st'' with
        | .error e => .error e
        | .ok toks => .ok (tok.make_keyword :: toks)

/-- `list(iter(TokenStream(source)))`: the full token list of a source string,
or the first lexing exception. -/
def tokenize (source : String) : Except PyError (List Token) :=
  TokenStream.tokenize_loop (source.length + 1) ⟨source.data, 0⟩

/-- `ast.Operator`: the closed operator enumeration (a `StrEnum` in the
source; the serialized text is `Operator.toStr`). -/
inductive Operator where
  | GT | LT | LE | GE | EQ | NE
deriving DecidableEq, Repr

/-- The `StrEnum` value of an `Operator` (what `str(op)` yields). -/
def Operator.toStr : Operator → String
  | .GT => ">"
  | .LT => "<"
  | .LE => "<="
  | .GE => ">="
  | .EQ => "="
  | .NE => "!="

/-- The member-name lookup loop of `Parser.take_operator`: an `Operator`
member whose name equals the token kind's name, if any. -/
def Operator.of_token_repr : TokenRepr → Option Operator
  | .GT => some .GT
  | .LT => some .LT
  | .LE => some .LE
  | .GE => some .GE
  | .EQ => some .EQ
  | .NE => some .NE
  | _ => none

/-- `ast.Field`: the closed field enumeration (a `StrEnum` in the source). -/
inductive Field where
  | AMOUNT | CURRENCY | MERCHANT_ID | IP_ADDRESS | DEVICE_ID | USER_AGE
  | USER_REGION
deriving DecidableEq, Repr

/-- The `StrEnum` value of a `Field` (what `str(field)` yields). -/
def Field.toStr : Field → String
  | .AMOUNT => "amount"
  | .CURRENCY => "currency"
  | .MERCHANT_ID => "merchantId"
  | .IP_ADDRESS => "ipAddress"
  | .DEVICE_ID => "deviceId"
  | .USER_AGE => "user.age"
  | .USER_REGION => "user.region"

/-- The `Field(tok.data)` enum-value lookup of `Parser.take_field`
(`ValueError`, i.e. `none`, when the string is not a member value). -/
def Field.fromString (s : String) : Option Field :=
  if s == "amount" then some .AMOUNT
  else if s == "currency" then some .CURRENCY
  else if s == "merchantId" then some .MERCHANT_ID
  else if s == "ipAddress" then some .IP_ADDRESS
  else if s == "deviceId" then some .DEVICE_ID
  else if s == "user.age" then some .USER_AGE
  else if s == "user.region" then some .USER_REGION
  else none

/-- `ast.Value = str | float | int`.  Numbers are modelled as rationals
(Python `int` and `float` compare numerically across each other, which `Rat`
captures for the decimal literals involved here). -/
inductive Value where
  | str (s : String)
  | num (x : Rat)
deriving DecidableEq, Repr

/-- `ast.Comp`: a comparison leaf. -/
structure Comp where
  field : Field
  operator : Operator
  value : Value
  span : Span
deriving DecidableEq, Repr

/-- `Comp.validate_operation`, as the predicate "all of the method's `assert`
statements pass".  Note: the source defines this method but *never calls it*
anywhere (in particular `Parser.take_comp` does not). -/
def Comp.validate_operation (c : Comp) : Bool :=
  if c.field == .AMOUNT || c.field == .MERCHANT_ID || c.field == .USER_AGE then
    match c.value with
    | .num _ => true
    | .str _ => false
  else
    (c.operator == .EQ || c.operator == .NE) &&
      (match c.value with
       | .str _ => true
       | .num _ => false)

/-- `ast.Expr = And[Expr] | Or[Expr] | Not[Expr] | Comp`, with the `span`
constructor argument of each node. -/
inductive Expr where
  | or (left right : Expr) (span : Span)
  | and (left right : Expr) (span : Span)
  | not (inner : Expr) (span : Span)
  | comp (c : Comp)
deriving DecidableEq, Repr

/-- The `span` attribute common to every AST node. -/
def Expr.span : Expr → Span
  | .or _ _ s => s
  | .and _ _ s => s
  | .not _ s => s
  | .comp c => c.span

/-- Whether a node is an `Or` (Python `isinstance(expr, Or)`). -/
def Expr.isOr : Expr → Bool
  | .or _ _ _ => true
  | _ => false

/-- `parser.Parser`: the token list produced by `list(iter(stream))` plus a
cursor. -/
structure Parser where
  stream : List Token
  position : Nat
deriving DecidableEq, Repr

/-- `Parser.__init__(TokenStream(source))`: materialize the token stream,
with `except ParserError: self.stream = []`.  A non-`ParserError` exception
raised by the lexer (e.g. `IndexError` for a trailing `!`) propagates. -/
def Parser.init (source : String) : Except PyError Parser :=
  match tokenize source with
  | .ok toks => .ok ⟨toks, 0⟩
  | .error (.parserError _ _) => .ok ⟨[], 0⟩
  | .error e => .error e

/-- `Parser.get`: `self.stream[position]` with `IndexError` mapped to `None`. -/
def Parser.get (p : Parser) (position : Nat) : Option Token :=
  p.stream[position]?

/-- `Parser.current`. -/
def Parser.current (p : Parser) : Option Token := p.get p.position

/-- `Parser.advance`: `self.position += 1; return self.get(self.position - 1)`. -/
def Parser.advance (p : Parser) : Option Token × Parser :=
  (p.get p.position, ⟨p.stream, p.position + 1⟩)

/-- `Parser.check_many`: the current token if its kind is in `reprs`. -/
def Parser.check_many (p : Parser) (reprs : List TokenRepr) : Option Token :=
  match p.current with
  | some tok => if tok.repr ∈ reprs then some tok else none
  | none => none

/-- `Parser.check`. -/
def Parser.check (p : Parser) (r : TokenRepr) : Option Token :=
  p.check_many [r]

/-- `Parser.consume`: advance past the current token if it has kind `r`.
(The Python method implicitly returns `None` when the check fails.) -/
def Parser.consume (p : Parser) (r : TokenRepr) : Option Token × Parser :=
  match p.check r with
  | some tok => (some tok, ⟨p.stream, p.position + 1⟩)
  | none => (none, p)

/-- `Parser.take_value`.  The source reads
`elif tok.repr == TokenRepr.NUMBER:` — but `TokenRepr` has no member
`NUMBER`, so for any present token that is not a `STRING` (in particular for
`FLOAT` and `INT` value tokens) evaluating `TokenRepr.NUMBER` raises
`AttributeError`; only when the stream is exhausted is a bare
`ParserError()` raised. -/
def Parser.take_value (p : Parser) : Except PyError ((Value × Span) × Parser) :=
  let (tok, p') := p.advance
  match tok with
  | some tok =>
    if tok.repr == .STRING then .ok ((.str tok.data, tok.span), p')
    else .error (.attributeError "TokenRepr.NUMBER")
  | none => .error (.parserError none none)

/-- `Parser.take_field`: an `IDENTIFIER` token naming a `Field` member;
otherwise `ParserError("expected a field found ...")`. -/
def Parser.take_field (p : Parser) : Except PyError ((Field × Span) × Parser) :=
  let (tok, p') := p.advance
  match tok with
  | some tok =>
    if tok.repr == .IDENTIFIER then
      match Field.fromString tok.data with
      | some f => .ok ((f, tok.span), p')
      | none => .error (.parserError (some "expected a field") none)
    else .error (.parserError (some "expected a field") none)
  | none => .error (.parserError (some "expected a field") none)

/-- `Parser.take_operator`: the next token's kind looked up among the
`Operator` member names; otherwise `ParserError("expected an operator ...")`. -/
def Parser.take_operator (p : Parser) : Except PyError (Operator × Parser) :=
  let (tok, p') := p.advance
  match tok with
  | some tok =>
    match Operator.of_token_repr tok.repr with
    | some op => .ok (op, p')
    | none => .error (.parserError (some "expected an operator") none)
  | none => .error (.parserError (some "expected an operator") none)

/-- `Parser.take_comp`: field, operator, value in sequence; a `ParserError`
from any of the three is re-raised as
`ParserError("while parsing comparison: ...")` (`str(e)` of a `ParserError`
is empty, since its `__init__` passes no arguments to `Exception`), while any
other exception — the `AttributeError` from `take_value` — propagates
unchanged.  The resulting `Comp` carries the *field* token's span and is not
validated (`Comp.validate_operation` is never invoked). -/
def Parser.take_comp (p : Parser) : Except PyError (Comp × Parser) :=
  match p.take_field with
  | .error (.parserError _ _) =>
    .error (.parserError (some "while parsing comparison: \n") none)
  | .error e => .error e
  | .ok ((f, span), p1) =>
    match p1.take_operator with
    | .error (.parserError _ _) =>
      .error (.parserError (some "while parsing comparison: \n") none)
    | .error e => .error e
    | .ok (op, p2) =>
      match p2.take_value with
      | .error (.parserError _ _) =>
        .error (.parserError (some "while parsing comparison: \n") none)
      | .error e => .error e
      | .ok ((v, _), p3) => .ok (⟨f, op, v, span⟩, p3)

mutual

/-- `Parser.expression`: `term`, then — if a single `OR` is consumed — one
more `term`, combined as `Or(left, right, left.span)`.  (No loop: at most one
`OR` is consumed per call.)  Fuel-embedded; every recursive call consumes at
least one token first, and the entry point passes more fuel than three times
the stream length, so the fuel-exhaustion branch is unreachable. -/
def Parser.expression : Nat → Parser → Except PyError (Expr × Parser)
  | 0, _ => .error .outOfFuel
  | fuel + 1, p =>
    match Parser.term fuel p with
    | .error e => .error e
    | .ok (left, p1) =>
      match p1.consume .OR with
      | (some _, p2) =>
        match Parser.term fuel p2 with
        | .error e => .error e
        | .ok (right, p3) => .ok (.or left right left.span, p3)
      | (none, _) => .ok (left, p1)

/-- `Parser.term`: `factor`, then — if a single `AND` is consumed — one more
`factor`, combined as `And(left, right, left.span)`. -/
def Parser.term : Nat → Parser → Except PyError (Expr × Parser)
  | 0, _ => .error .outOfFuel
  | fuel + 1, p =>
    match Parser.factor fuel p with
    | .error e => .error e
    | .ok (left, p1) =>
      match p1.consume .AND with
      | (some _, p2) =>
        match Parser.factor fuel p2 with
        | .error e => .error e
        | .ok (right, p3) => .ok (.and left right left.span, p3)
      | (none, _) => .ok (left, p1)

/-- `Parser.factor`: `NOT factor`, a parenthesized `expression` (the closing
`)` is consumed if present but not required), or a comparison.  A
`ParserError` from `take_comp` is replaced by
`ParserError("expected ...")`; other exceptions propagate. -/
def Parser.factor : Nat → Parser → Except PyError (Expr × Parser)
  | 0, _ => .error .outOfFuel
  | fuel + 1, p =>
    match p.consume .NOT with
    | (some tok, p1) =>
      match Parser.factor fuel p1 with
      | .error e => .error e
      | .ok (inner, p2) => .ok (.not inner tok.span, p2)
    | (none, _) =>
      match p.consume .LPAREN with
      | (some _, p1) =>
        match Parser.expression fuel p1 with
        | .error e => .error e
        | .ok (expr, p2) =>
          let (_, p3) := p2.consume .RPAREN
          .ok (expr, p3)
      | (none, _) =>
        match p.take_comp with
        | .ok (comp, p1) => .ok (.comp comp, p1)
        | .error (.parserError _ _) =>
          .error (.parserError
            (some "expected `NOT`, `(`, `)` or a comparison expression") none)
        | .error e => .error e

end

/-- Modelled from the spec: `EvaluationRequest` is imported from
`app.dsl.types` by `ast.py`, `models.py` and `routers/transactions.py`, but
no definition of it appears in the sources; per the spec (§3, §6) the fact
record exposes exactly the seven attributes of the `Field` enumeration,
"numeric or string, each optional".  Attribute names follow the accessors
used by `Field.get_propery_on_request` plus `ip_address` for the `ipAddress`
field; `merchantId` is taken as string-kind, the choice this spec's §9
documents. -/
structure EvaluationRequest where
  amount : Option Rat
  currency : Option String
  merchant_id : Option String
  ip_address : Option String
  device_id : Option String
  user_age : Option Rat
  user_region : Option String
deriving DecidableEq, Repr

/-- `Field.get_propery_on_request` (name as in the source): the accessor
table.  The Python `match self:` statement has cases for every member
*except* `Field.IP_ADDRESS`; for it no case matches and the method falls
through, returning `None`. -/
def Field.get_propery_on_request (f : Field) (req : EvaluationRequest) :
    Option Value :=
  match f with
  | .AMOUNT => req.amount.map .num
  | .CURRENCY => req.currency.map .str
  | .MERCHANT_ID => req.merchant_id.map .str
  | .DEVICE_ID => req.device_id.map .str
  | .USER_AGE => req.user_age.map .num
  | .USER_REGION => req.user_region.map .str
  | .IP_ADDRESS => none

/-- Python `a > b` on DSL values: numeric comparison, lexicographic string
comparison, `TypeError` across kinds. -/
def pyGt : Value → Value → Except PyError Bool
  | .num a, .num b => .ok (decide (a > b))
  | .str a, .str b => .ok (decide (b < a))
  | _, _ => .error .typeError

/-- Python `a >= b` on DSL values. -/
def pyGe : Value → Value → Except PyError Bool
  | .num a, .num b => .ok (decide (a ≥ b))
  | .str a, .str b => .ok (decide (¬a < b))
  | _, _ => .error .typeError

/-- Python `a < b` on DSL values. -/
def pyLt : Value → Value → Except PyError Bool
  | .num a, .num b => .ok (decide (a < b))
  | .str a, .str b => .ok (decide (a < b))
  | _, _ => .error .typeError

/-- Python `a <= b` on DSL values. -/
def pyLe : Value → Value → Except PyError Bool
  | .num a, .num b => .ok (decide (a ≤ b))
  | .str a, .str b => .ok (decide (¬b < a))
  | _, _ => .error .typeError

/-- Python `a == b` on DSL values (`==` across kinds is `False`, no error). -/
def pyEq : Value → Value → Bool
  | .num a, .num b => a == b
  | .str a, .str b => a == b
  | _, _ => false

/-- `ast.eval_comp`: resolve the field on the request; a `None` attribute
value makes the comparison `False`; otherwise apply the operator with Python
comparison semantics. -/
def eval_comp (comp : Comp) (req : EvaluationRequest) : Except PyError Bool :=
  match comp.field.get_propery_on_request req with
  | none => .ok false
  | some val =>
    match comp.operator with
    | .GT => pyGt val comp.value
    | .GE => pyGe val comp.value
    | .LT => pyLt val comp.value
    | .LE => pyLe val comp.value
    | .EQ => .ok (pyEq val comp.value)
    | .NE => .ok (!pyEq val comp.value)

/-- `ast.evaluate`: the recursive AST evaluator, with Python's
short-circuiting `or` / `and`. -/
def evaluate : Expr → EvaluationRequest → Except PyError Bool
  | .or left right _, req =>
    match evaluate left req with
    | .error e => .error e
    | .ok true => .ok true
    | .ok false => evaluate right req
  | .and left right _, req =>
    match evaluate left req with
    | .error e => .error e
    | .ok false => .ok false
    | .ok true => evaluate right req
  | .not inner _, req =>
    match evaluate inner req with
    | .error e => .error e
    | .ok b => .ok (!b)
  | .comp c, req => eval_comp c req

/-- Python `str(float)` for the float values rendered by the normalizer:
exact for integral values (`str(100.0) = "100.0"`); the non-integral case is
a stand-in rendering no claim depends on. -/
def pyFloatStr (q : Rat) : String :=
  if q.den = 1 then toString q.num ++ ".0" else toString q

/-- `ast.build_normalized_expression`: render an AST back to DSL text.
Under `And`, a child that is an `Or` is wrapped in parentheses; `Or` renders
both children bare; `Not` always renders as `NOT (...)`; `Comp` renders
`field operator value` with string values single-quoted. -/
def build_normalized_expression : Expr → String
  | .and l r _ =>
    let left := build_normalized_expression l
    let left :=
      match l with
      | .or _ _ _ => "(" ++ left ++ ")"
      | _ => left
    let right := build_normalized_expression r
    let right :=
      match r with
      | .or _ _ _ => "(" ++ right ++ ")"
      | _ => right
    left ++ " AND " ++ right
  | .or l r _ =>
    build_normalized_expression l ++ " OR " ++ build_normalized_expression r
  | .not inner _ =>
    "NOT (" ++ build_normalized_expression inner ++ ")"
  | .comp c =>
    let val :=
      match c.value with
      | .str s => "'" ++ s ++ "'"
      | .num q => pyFloatStr q
    c.field.toStr ++ " " ++ c.operator.toStr ++ " " ++ val

namespace DslInit

/-- `dsl.__init__.parse_rule`: build a `Parser` over the token stream and run
`expression()`.  The source then executes
`if parser.stream_error is not None:` — but `Parser` objects have no
attribute `stream_error` (no method ever assigns one), so this read raises
`AttributeError` whenever `expression()` returns; an exception raised by
`expression()` itself propagates unchanged. -/
def parse_rule (rule : String) : Except PyError Expr :=
  match Parser.init rule with
  | .error e => .error e
  | .ok parser =>
    match Parser.expression (3 * parser.stream.length + 3) parser with
    | .ok _ => .error (.attributeError "stream_error")
    | .error e => .error e

/-- `dsl.__init__.normalize_or_none`: normalize a parsed rule, with
`except ParserError: return None`; any other exception propagates. -/
def normalize_or_none (rule : String) : Except PyError (Option String) :=
  match parse_rule rule with
  | .ok expr => .ok (some (build_normalized_expression expr))
  | .error (.parserError _ _) => .ok none
  | .error e => .error e

/-- `dsl.__init__.evaluate`: the package-level evaluator actually called by
`routers/transactions.py` (`get_fraud_rule_eval`).  Its entire body is
`return False`. -/
def evaluate (_expr : Expr) (_request : EvaluationRequest) : Bool :=
  false

end DslInit

/-- Harness helper for stating parser-level claims: the result of
`Parser.expression` as driven by `parse_rule` (same token stream, same fuel),
but *without* `parse_rule`'s subsequent read of the nonexistent
`stream_error` attribute — it exposes the parsed expression together with the
final token-cursor position. -/
def expression_of_rule (rule : String) : Except PyError (Expr × Nat) :=
  match Parser.init rule with
  | .error e => .error e
  | .ok parser =>
    match Parser.expression (3 * parser.stream.length + 3) parser with
    | .ok (expr, p) => .ok (expr, p.position)
    | .error e => .error e

/-! ## General lemmas about the compile pipeline -/

/-- `parse_rule` can never return an expression: when `expression()` raises,
the exception propagates, and when it returns, the subsequent read of the
nonexistent `stream_error` attribute raises `AttributeError`. -/
theorem parse_rule_always_errors (rule : String) :
    ∃ e, DslInit.parse_rule rule = Except.error e := by
  unfold DslInit.parse_rule
  cases h1 : Parser.init rule with
  | error e => exact ⟨e, rfl⟩
  | ok parser =>
    cases h2 : Parser.expression (3 * parser.stream.length + 3) parser with
    | ok v => exact ⟨.attributeError "stream_error", by simp [h2]⟩
    | error e => exact ⟨e, by simp [h2]⟩

/-! ## The claims -/

/-- C1.  The spec's concrete scenario claims that compiling
`"amount > 100 AND currency = 'USD'"` succeeds and that the compiled rule
evaluates to `true` on facts `{amount: 150, currency: "USD"}` and to `false`
on `{amount: 50, currency: "USD"}`.  In fact compilation raises
`AttributeError`: `Parser.take_value` reaches the comparison
`tok.repr == TokenRepr.NUMBER` on the `INT` token `100`, and `TokenRepr` has
no member `NUMBER`.  The intended AST itself (built by hand) would evaluate
exactly as the scenario describes, so the failure is in compilation. -/
theorem c1_scenario_rule_fails_to_compile :
    DslInit.parse_rule "amount > 100 AND currency = 'USD'" =
      Except.error (PyError.attributeError "TokenRepr.NUMBER") ∧
    evaluate
      (.and (.comp ⟨.AMOUNT, .GT, .num 100, ⟨0⟩⟩)
        (.comp ⟨.CURRENCY, .EQ, .str "USD", ⟨17⟩⟩) ⟨0⟩)
      ⟨some 150, some "USD", none, none, none, none, none⟩ = .ok true ∧
    evaluate
      (.and (.comp ⟨.AMOUNT, .GT, .num 100, ⟨0⟩⟩)
        (.comp ⟨.CURRENCY, .EQ, .str "USD", ⟨17⟩⟩) ⟨0⟩)
      ⟨some 50, some "USD", none, none, none, none, none⟩ = .ok false := by
  refine ⟨?_, rfl, rfl⟩
  have ht : tokenize "amount > 100 AND currency = 'USD'" =
      .ok [⟨.IDENTIFIER, "amount", ⟨0⟩⟩, ⟨.GT, ">", ⟨7⟩⟩, ⟨.INT, "100", ⟨9⟩⟩,
        ⟨.AND, "AND", ⟨13⟩⟩, ⟨.IDENTIFIER, "currency", ⟨17⟩⟩, ⟨.EQ, "=", ⟨26⟩⟩,
        ⟨.STRING, "USD", ⟨28⟩⟩] := rfl
  unfold DslInit.parse_rule Parser.init
  rw [ht]
  rfl

/-- C2.  The package-level `dsl.evaluate` — the function
`routers/transactions.py` calls to decide whether a rule matches — is
`return False`: it returns `false` for every expression and every fact
record, and does not delegate to `ast.evaluate` (shown on a comparison the
AST evaluator decides `true`). -/
theorem c2_package_evaluate_always_false :
    (∀ (e : Expr) (req : EvaluationRequest), DslInit.evaluate e req = false) ∧
    evaluate (.comp ⟨.CURRENCY, .EQ, .str "USD", ⟨0⟩⟩)
      ⟨none, some "USD", none, none, none, none, none⟩ = .ok true ∧
    DslInit.evaluate (.comp ⟨.CURRENCY, .EQ, .str "USD", ⟨0⟩⟩)
      ⟨none, some "USD", none, none, none, none, none⟩ = false :=
  ⟨fun _ _ => rfl, rfl, rfl⟩

/-- C3.  The claimed contract is that `parse_rule` either returns an `Expr`
or raises `ParserError`.  In fact `parse_rule` *never* returns an
expression, and `AttributeError` (not `ParserError`) escapes both on the
success path (the `stream_error` read) and for inputs with numeric value
literals (the `TokenRepr.NUMBER` read). -/
theorem c3_parse_rule_never_expr_and_raises_attribute_error :
    (∀ rule : String, ∃ e, DslInit.parse_rule rule = Except.error e) ∧
    DslInit.parse_rule "currency = 'USD'" =
      Except.error (PyError.attributeError "stream_error") ∧
    DslInit.parse_rule "amount > 12" =
      Except.error (PyError.attributeError "TokenRepr.NUMBER") :=
  ⟨parse_rule_always_errors, rfl, rfl⟩

/-- C4 counterexample.  The claim that `a OR b OR c` folds to
`Or(Or(a,b),c)` with no term dropped is false: on
`"currency = 'a' OR currency = 'b' OR currency = 'c'"` — eleven tokens —
`Parser.expression` returns `Or(comp_a, comp_b)` (whose left child is a
comparison, not an `Or`) with the token cursor at 7, leaving the trailing
`OR currency = 'c'` unconsumed. -/
theorem c4_or_chain_drops_third_term :
    expression_of_rule "currency = 'a' OR currency = 'b' OR currency = 'c'" =
      .ok (.or (.comp ⟨.CURRENCY, .EQ, .str "a", ⟨0⟩⟩)
        (.comp ⟨.CURRENCY, .EQ, .str "b", ⟨18⟩⟩) ⟨0⟩, 7) ∧
    (tokenize "currency = 'a' OR currency = 'b' OR currency = 'c'").map
      List.length = .ok 11 := by
  constructor
  · have ht : tokenize "currency = 'a' OR currency = 'b' OR currency = 'c'" =
        .ok [⟨.IDENTIFIER, "currency", ⟨0⟩⟩, ⟨.EQ, "=", ⟨9⟩⟩, ⟨.STRING, "a", ⟨11⟩⟩,
          ⟨.OR, "OR", ⟨15⟩⟩, ⟨.IDENTIFIER, "currency", ⟨18⟩⟩, ⟨.EQ, "=", ⟨27⟩⟩,
          ⟨.STRING, "b", ⟨29⟩⟩, ⟨.OR, "OR", ⟨33⟩⟩, ⟨.IDENTIFIER, "currency", ⟨36⟩⟩,
          ⟨.EQ, "=", ⟨45⟩⟩, ⟨.STRING, "c", ⟨47⟩⟩] := rfl
    unfold expression_of_rule Parser.init
    rw [ht]
    rfl
  · rfl

/-- C4 amended.  `Parser.expression` (resp. `Parser.term`) combines exactly
one trailing `OR` (resp. `AND`) term: a chain of three or more unparenthesized
terms parses as `Or(a,b)` (resp. `And(a,b)`), the remaining terms being left
unconsumed and silently absent from the AST — shown on a four-term `OR`
chain and a three-term `AND` chain. -/
theorem c4_amended_first_two_terms_only :
    expression_of_rule
      "currency = 'a' OR currency = 'b' OR currency = 'c' OR currency = 'd'" =
      .ok (.or (.comp ⟨.CURRENCY, .EQ, .str "a", ⟨0⟩⟩)
        (.comp ⟨.CURRENCY, .EQ, .str "b", ⟨18⟩⟩) ⟨0⟩, 7) ∧
    expression_of_rule "currency = 'a' AND currency = 'b' AND currency = 'c'" =
      .ok (.and (.comp ⟨.CURRENCY, .EQ, .str "a", ⟨0⟩⟩)
        (.comp ⟨.CURRENCY, .EQ, .str "b", ⟨19⟩⟩) ⟨0⟩, 7) := by
  constructor
  · have ht : tokenize
        "currency = 'a' OR currency = 'b' OR currency = 'c' OR currency = 'd'" =
        .ok [⟨.IDENTIFIER, "currency", ⟨0⟩⟩, ⟨.EQ, "=", ⟨9⟩⟩, ⟨.STRING, "a", ⟨11⟩⟩,
          ⟨.OR, "OR", ⟨15⟩⟩, ⟨.IDENTIFIER, "currency", ⟨18⟩⟩, ⟨.EQ, "=", ⟨27⟩⟩,
          ⟨.STRING, "b", ⟨29⟩⟩, ⟨.OR, "OR", ⟨33⟩⟩, ⟨.IDENTIFIER, "currency", ⟨36⟩⟩,
          ⟨.EQ, "=", ⟨45⟩⟩, ⟨.STRING, "c", ⟨47⟩⟩, ⟨.OR, "OR", ⟨51⟩⟩,
          ⟨.IDENTIFIER, "currency", ⟨54⟩⟩, ⟨.EQ, "=", ⟨63⟩⟩, ⟨.STRING, "d", ⟨65⟩⟩] := rfl
    unfold expression_of_rule Parser.init
    rw [ht]
    rfl
  · have ht : tokenize "currency = 'a' AND currency = 'b' AND currency = 'c'" =
        .ok [⟨.IDENTIFIER, "currency", ⟨0⟩⟩, ⟨.EQ, "=", ⟨9⟩⟩, ⟨.STRING, "a", ⟨11⟩⟩,
          ⟨.AND, "AND", ⟨15⟩⟩, ⟨.IDENTIFIER, "currency", ⟨19⟩⟩, ⟨.EQ, "=", ⟨28⟩⟩,
          ⟨.STRING, "b", ⟨30⟩⟩, ⟨.AND, "AND", ⟨34⟩⟩, ⟨.IDENTIFIER, "currency", ⟨38⟩⟩,
          ⟨.EQ, "=", ⟨47⟩⟩, ⟨.STRING, "c", ⟨49⟩⟩] := rfl
    unfold expression_of_rule Parser.init
    rw [ht]
    rfl

/-- C5.  Field/operator/value compatibility is *not* enforced at parse time:
the parser accepts `amount = 'USD'` — a numeric field with a string value —
and returns the comparison AST (a `Comp` that the source's own, never-called
`validate_operation` rejects); and `parse("currency > 100")` fails not with a
validation error but with the `AttributeError` from `TokenRepr.NUMBER`. -/
theorem c5_no_parse_time_validation :
    expression_of_rule "amount = 'USD'" =
      .ok (.comp ⟨.AMOUNT, .EQ, .str "USD", ⟨0⟩⟩, 3) ∧
    Comp.validate_operation ⟨.AMOUNT, .EQ, .str "USD", ⟨0⟩⟩ = false ∧
    DslInit.parse_rule "currency > 100" =
      Except.error (PyError.attributeError "TokenRepr.NUMBER") :=
  ⟨rfl, rfl, rfl⟩

/-- C6.  The lexer does not recognize `>=` (nor `<=`) as one token:
`TokenStream.peek` reads `source[position + 1]`, one character past the `=`
that follows the consumed `>`, so `"amount >= 10"` lexes as `IDENTIFIER`,
`GT`, `EQ`, `INT` — a `GT` token followed by an `EQ` token, never a `GE`
token; likewise `<=` lexes as `LT` then `EQ`. -/
theorem c6_ge_lexes_as_gt_then_eq :
    tokenize "amount >= 10" =
      .ok [⟨.IDENTIFIER, "amount", ⟨0⟩⟩, ⟨.GT, ">", ⟨7⟩⟩, ⟨.EQ, "=", ⟨8⟩⟩,
        ⟨.INT, "10", ⟨10⟩⟩] ∧
    tokenize "amount <= 10" =
      .ok [⟨.IDENTIFIER, "amount", ⟨0⟩⟩, ⟨.LT, "<", ⟨7⟩⟩, ⟨.EQ, "=", ⟨8⟩⟩,
        ⟨.INT, "10", ⟨10⟩⟩] :=
  ⟨rfl, rfl⟩

/-- C7.  `ipAddress` does *not* map to an accessor at evaluation time: the
`match` in `Field.get_propery_on_request` has no `IP_ADDRESS` case, so the
accessor yields `None` and every `ipAddress` comparison — any operator, any
value, any fact record — evaluates to `false`, even on a record whose
`ip_address` equals the compared value. -/
theorem c7_ip_address_comparisons_always_false :
    (∀ (req : EvaluationRequest) (op : Operator) (v : Value) (sp : Span),
      Field.get_propery_on_request .IP_ADDRESS req = none ∧
      evaluate (.comp ⟨.IP_ADDRESS, op, v, sp⟩) req = .ok false) ∧
    evaluate (.comp ⟨.IP_ADDRESS, .EQ, .str "1.2.3.4", ⟨0⟩⟩)
      ⟨none, none, none, some "1.2.3.4", none, none, none⟩ = .ok false :=
  ⟨fun _ _ _ _ => ⟨rfl, rfl⟩, rfl⟩

/-- C8.  Fail-safe evaluation: whenever the compared field's attribute on the
fact record is absent (the accessor yields `None`), `ast.evaluate` of the
comparison returns `false` — an `ok` result, never an exception. -/
theorem c8_missing_attribute_evaluates_false (c : Comp)
    (req : EvaluationRequest)
    (h : Field.get_propery_on_request c.field req = none) :
    evaluate (.comp c) req = .ok false := by
  show eval_comp c req = .ok false
  unfold eval_comp
  rw [h]

/-- C8 witness: a record with no `device_id`, and the comparison
`Comp(deviceId, =, 'x')`. -/
theorem c8_missing_attribute_evaluates_false_witness :
    Field.get_propery_on_request Field.DEVICE_ID
      ⟨none, none, none, none, none, none, none⟩ = none ∧
    evaluate (.comp ⟨.DEVICE_ID, .EQ, .str "x", ⟨0⟩⟩)
      ⟨none, none, none, none, none, none, none⟩ = .ok false :=
  ⟨rfl, c8_missing_attribute_evaluates_false _ _ rfl⟩

/-- C9.  Normalizer parenthesization invariant: for all subexpressions,
`And(Or(a,b), c)` with `c` not an `Or` renders exactly as
`"(a OR b) AND c"` (parentheses only around the `Or` child of the `And`),
`Or` renders its children bare, and `Not` always renders as
`"NOT ({inner})"`. -/
theorem c9_normalizer_parenthesization (a b c : Expr) (s1 s2 s3 : Span) :
    (c.isOr = false →
      build_normalized_expression (.and (.or a b s1) c s2) =
        "(" ++ build_normalized_expression a ++ " OR " ++
          build_normalized_expression b ++ ")" ++ " AND " ++
          build_normalized_expression c) ∧
    build_normalized_expression (.or a b s1) =
      build_normalized_expression a ++ " OR " ++
        build_normalized_expression b ∧
    build_normalized_expression (.not a s3) =
      "NOT (" ++ build_normalized_expression a ++ ")" := by
  refine ⟨fun h => ?_, rfl, rfl⟩
  cases c <;> simp_all [build_normalized_expression, Expr.isOr,
    String.append_assoc]

/-- C9 witness: `And(Or(amount > 100, currency = 'USD'), user.age < 18)`
renders with parentheses exactly around the `Or` child. -/
theorem c9_normalizer_parenthesization_witness :
    Expr.isOr (.comp ⟨.USER_AGE, .LT, .num 18, ⟨0⟩⟩) = false ∧
    build_normalized_expression
      (.and (.or (.comp ⟨.AMOUNT, .GT, .num 100, ⟨0⟩⟩)
        (.comp ⟨.CURRENCY, .EQ, .str "USD", ⟨0⟩⟩) ⟨0⟩)
        (.comp ⟨.USER_AGE, .LT, .num 18, ⟨0⟩⟩) ⟨0⟩) =
      "(amount > 100.0 OR currency = 'USD') AND user.age < 18.0" :=
  ⟨rfl,
    ((c9_normalizer_parenthesization
      (.comp ⟨.AMOUNT, .GT, .num 100, ⟨0⟩⟩)
      (.comp ⟨.CURRENCY, .EQ, .str "USD", ⟨0⟩⟩)
      (.comp ⟨.USER_AGE, .LT, .num 18, ⟨0⟩⟩) ⟨0⟩ ⟨0⟩ ⟨0⟩).1 rfl).trans rfl⟩

/-- C10.  The round-trip property fails for every rule: since `parse_rule`
never returns an expression (it raises on every input), `normalize ∘ parse`
never yields a normalized string — `normalize_or_none` returns `None` (when
the failure was a `ParserError`) or propagates the exception; on the
syntactically valid rule `"currency = 'USD'"` it propagates the
`AttributeError` from the `stream_error` read. -/
theorem c10_round_trip_impossible :
    (∀ rule : String, DslInit.normalize_or_none rule = .ok none ∨
      ∃ e, DslInit.normalize_or_none rule = Except.error e) ∧
    DslInit.normalize_or_none "currency = 'USD'" =
      Except.error (PyError.attributeError "stream_error") := by
  constructor
  · intro rule
    obtain ⟨e, he⟩ := parse_rule_always_errors rule
    unfold DslInit.normalize_or_none
    rw [he]
    cases e with
    | parserError d p => exact Or.inl rfl
    | attributeError n => exact Or.inr ⟨_, rfl⟩
    | indexError => exact Or.inr ⟨_, rfl⟩
    | typeError => exact Or.inr ⟨_, rfl⟩
    | outOfFuel => exact Or.inr ⟨_, rfl⟩
  · rfl

end FraudDsl
